import Mathlib

/-!
Shallow embedding of the Minimal NTP Server (`src/main.py`) and verification
of the specification's claims about it.

Modelling conventions:
* A Python `datetime.datetime` is modelled by `PyDatetime`: `wall` is the naive
  wall-clock reading in microseconds counted from 1900-01-01T00:00:00 (the NTP
  epoch), and `tz` is `some o` for an aware datetime whose `utcoffset()` is `o`
  microseconds, or `none` for a naive datetime.
* A Python `timedelta` is an integer number of microseconds (the resolution of
  `datetime`/`timedelta`).
* Byte strings are `List Nat` with every element below 256.
* `int(delta.total_seconds())` truncates the float `T / 10^6` toward zero.
  For `|T| < 2^32 * 10^6` (the range every claim uses) the float computation
  is exact up to the truncation — the numerator is below 2^53, so division is
  correctly rounded with error under 2^-21 s, smaller than the 10^-6 s distance
  to the nearest other integer — hence it is modelled as `Int.tdiv T 1000000`.
* `int((microseconds / 1_000_000) * (2 ** 32))` with `0 ≤ microseconds < 10^6`
  equals `(microseconds * 2^32) / 10^6` in exact integer arithmetic: the float
  error after scaling is below 2^-21, while the exact value is either a dyadic
  rational that the float holds exactly (when 15625 ∣ microseconds) or at
  fractional distance ≥ 1/15625 from any integer.  Likewise
  `int((fractional / (2 ** 32)) * 1_000_000)` with `fractional < 2^32` is exact
  float arithmetic and equals `(fractional * 10^6) / 2^32`.
* Python `>>`/`//`/`%` on ints are floor operations, and `x & 0xFFFFFFFF` is
  `x mod 2^32`; for the positive divisors used here these are `Int.ediv`/
  `Int.emod`.
-/

namespace NtpServer

/-- Model of a Python `datetime.datetime`: the naive wall-clock reading in
microseconds since 1900-01-01T00:00:00, plus the attached `tzinfo` as its UTC
offset in microseconds (`none` = naive). -/
structure PyDatetime where
  wall : Int
  tz : Option Int
deriving DecidableEq, Repr, Inhabited

/-- The constant `NTP_EPOCH = datetime(1900, 1, 1, tzinfo=utc)` (src/main.py line 15). -/
def NTP_EPOCH : PyDatetime := ⟨0, some 0⟩

/-- Python `dt.replace(tzinfo=datetime.timezone.utc)`: keeps the wall reading, tags UTC. -/
def replaceTzUTC (d : PyDatetime) : PyDatetime := ⟨d.wall, some 0⟩

/-- Python `dt.astimezone(datetime.timezone.utc)` on an aware datetime: shifts the wall
reading by the UTC offset and tags UTC.  (The codec only applies it to aware
datetimes; the `none` case is never reached there.) -/
def astimezoneUTC (d : PyDatetime) : PyDatetime :=
  match d.tz with
  | some o => ⟨d.wall - o, some 0⟩
  | none => ⟨d.wall, some 0⟩

/-- The UTC instant a datetime denotes, in microseconds since the NTP epoch
(naive datetimes read as UTC, mirroring how the codec treats them). -/
def utcInstant (d : PyDatetime) : Int := (astimezoneUTC d).wall

/-- Function `datetime_to_ntp_timestamp` (src/main.py lines 18-40): tag naive input as
UTC, normalise to UTC, split the delta since `NTP_EPOCH` into whole seconds
(`int(delta.total_seconds())`, truncation toward zero) and the normalised
microsecond remainder (`delta.microseconds ∈ [0, 10^6)`), scale the remainder
to a 32-bit fraction, and pack `(seconds << 32) | fractional`.  Since
`fractional < 2^32` and `seconds << 32` has 32 zero low bits, the pack is
`seconds * 2^32 + fractional`. -/
def datetime_to_ntp_timestamp (d : PyDatetime) : Int :=
  let d1 := if d.tz = none then replaceTzUTC d else d
  let dUtc := astimezoneUTC d1
  let T := dUtc.wall - NTP_EPOCH.wall
  let seconds := Int.tdiv T 1000000
  let microseconds := T % 1000000
  let fractional := microseconds * 4294967296 / 1000000
  seconds * 4294967296 + fractional

/-- Function `ntp_timestamp_to_datetime` (src/main.py lines 43-55): high 32 bits are
seconds (`(ts >> 32) & 0xFFFFFFFF`), low 32 bits the fraction; the fraction is
scaled back to microseconds; result is `NTP_EPOCH + timedelta(...)` tagged UTC. -/
def ntp_timestamp_to_datetime (ntp : Int) : PyDatetime :=
  let seconds := ntp / 4294967296 % 4294967296
  let fractional := ntp % 4294967296
  let microseconds := fractional * 1000000 / 4294967296
  ⟨NTP_EPOCH.wall + seconds * 1000000 + microseconds, some 0⟩

/-- Big-endian value of a byte string (`int.from_bytes(bs, 'big')`, the value
`struct.unpack('!Q', bs)` yields on 8 bytes). -/
def bytesToNatBE (l : List Nat) : Nat := l.foldl (fun a b => a * 256 + b) 0

/-- The 8-byte big-endian encoding `struct.pack('!Q', n)` produces for
`0 ≤ n < 2^64`. -/
def natToBytes8BE (n : Nat) : List Nat :=
  [n / 2 ^ 56 % 256, n / 2 ^ 48 % 256, n / 2 ^ 40 % 256, n / 2 ^ 32 % 256,
   n / 2 ^ 24 % 256, n / 2 ^ 16 % 256, n / 2 ^ 8 % 256, n % 256]

/-- The 4-byte big-endian encoding `struct.pack('!I', n)` produces for
`0 ≤ n < 2^32`. -/
def natToBytes4BE (n : Nat) : List Nat :=
  [n / 2 ^ 24 % 256, n / 2 ^ 16 % 256, n / 2 ^ 8 % 256, n % 256]

/-- Python `struct.unpack('!Q', bs)`: succeeds exactly on 8-byte input, else raises
`struct.error` (modelled as `none`). -/
def unpackQ (bs : List Nat) : Option Nat :=
  if bs.length = 8 then some (bytesToNatBE bs) else none

/-- Python `struct.pack('!Q', v)`: succeeds exactly for `0 ≤ v < 2^64`, else raises
`struct.error` (modelled as `none`). -/
def packQ (v : Int) : Option (List Nat) :=
  if 0 ≤ v ∧ v < 18446744073709551616 then some (natToBytes8BE v.toNat) else none

/-- Function `parse_ntp_request` (src/main.py lines 120-136): inputs shorter than 48
bytes return `None`; otherwise the 8-byte big-endian integer at offsets 24-31
(`data[24:32]`) is extracted.  The `struct.error` handler maps to the `none`
result of `unpackQ`. -/
def parse_ntp_request (data : List Nat) : Option Nat :=
  if data.length < 48 then none
  else unpackQ ((data.drop 24).take 8)

/-- Function `build_ntp_response` (src/main.py lines 139-203).  Field constants follow
the source: `flags = (0 << 6) | (4 << 3) | 4 = 36`, `stratum = 2`, `poll = 1`,
`struct.pack('!b', -20)` yields the byte 236, `int(0.001 * (1 << 16)) = 65`
for both root delay and root dispersion (float 0.001 * 65536 = 65.536…,
truncated), `ref_id = b'LOCL' = [76, 79, 67, 76]`, and the reference timestamp
equals the transmit timestamp.  Each `struct.pack('!Q', ...)` can raise, in
source order: reference, origin, receive, transmit. -/
def build_ntp_response (origin_time : Nat) (receive_time transmit_time : PyDatetime) :
    Option (List Nat) := do
  let receive_ntp := datetime_to_ntp_timestamp receive_time
  let transmit_ntp := datetime_to_ntp_timestamp transmit_time
  let flags : Nat := 36
  let stratum : Nat := 2
  let poll : Nat := 1
  let precisionByte : Nat := 236
  let root_delay : Nat := 65
  let root_dispersion : Nat := 65
  let ref_id : List Nat := [76, 79, 67, 76]
  let refBytes ← packQ transmit_ntp
  let originBytes ← packQ (origin_time : Int)
  let recvBytes ← packQ receive_ntp
  let transBytes ← packQ transmit_ntp
  some ([flags, stratum, poll, precisionByte] ++
    natToBytes4BE root_delay ++ natToBytes4BE root_dispersion ++ ref_id ++
    refBytes ++ originBytes ++ recvBytes ++ transBytes)

/-- Transmit-time computation inlined in the receive loop of `main`
(src/main.py lines 252-262).  The loop reads the clock twice per datagram:
`tReceive` is the `datetime.datetime.now(utc)` sample stored as the receive
timestamp (line 253), and `tNow` is the separate, later `time.time()` sample
used to compute the elapsed time (line 258).  With a custom base configured
the transmit instant is `base_time + (tNow - server_start_time)`; otherwise it
is `receive_time` itself.  All values are instants in microseconds. -/
def loopTransmitInstant (useCustomTime : Bool) (baseTime serverStartTime : Int)
    (tReceive tNow : Int) : Int :=
  if useCustomTime then baseTime + (tNow - serverStartTime) else tReceive

/-- Modelled from the spec (section 4.2, Virtual Clock), for comparison with the
code's inlined computation: `currentTransmitInstant(state, realNow)` returns
`state.baseInstant + (realNow - state.serverStartRealInstant)` when a custom
base was configured, else `realNow`. -/
def specVirtualClock (useCustomTime : Bool) (baseInstant serverStartRealInstant realNow : Int) :
    Int :=
  if useCustomTime then baseInstant + (realNow - serverStartRealInstant) else realNow

/-- Outcome of the library parsing attempts `parse_custom_time` performs on one
concrete input string (src/main.py lines 58-98).  The string itself stays
abstract; each field records what the corresponding Python call returns on it:
`isEmpty` is the falsiness test `not time_str`; `unixResult` is
`datetime.fromtimestamp(float(s), tz=utc)` as a UTC instant in microseconds, or
`none` when that raises `ValueError`/`OSError`; `isoResult` is
`datetime.fromisoformat(s.replace('Z', '+00:00'))`, or `none` on `ValueError`;
`fmtResults` lists, for each of the four fixed naive formats in order, the
naive wall reading `datetime.strptime(s, fmt)` yields, or `none` on
`ValueError`. -/
structure TimeStr where
  isEmpty : Bool
  unixResult : Option Int
  isoResult : Option PyDatetime
  fmtResults : List (Option Int)
deriving DecidableEq, Repr, Inhabited

/-- First successful attempt of a `for fmt in formats: try ... except: continue`
loop. -/
def firstSome : List (Option Int) → Option Int
  | [] => none
  | some a :: _ => some a
  | none :: rest => firstSome rest

/-- Function `parse_custom_time` (src/main.py lines 58-98): empty input returns
`None`; then the Unix-timestamp, ISO-8601 and fixed-format parses are tried in
order; when every attempt fails, `ValueError` is raised (modelled as
`Except.error`).  A Unix timestamp is built with `tz=utc` (aware UTC); an ISO
result is tagged UTC if naive and then normalised with `astimezone(utc)`; a
`strptime` result is naive and tagged UTC by `replace`. -/
def parse_custom_time (s : TimeStr) : Except String (Option PyDatetime) :=
  if s.isEmpty then .ok none
  else
    match s.unixResult with
    | some t => .ok (some ⟨t, some 0⟩)
    | none =>
      match s.isoResult with
      | some d => .ok (some (astimezoneUTC (if d.tz = none then replaceTzUTC d else d)))
      | none =>
        match firstSome s.fmtResults with
        | some w => .ok (some (replaceTzUTC ⟨w, none⟩))
        | none => .error "Unable to parse time string"

/-- Python truthiness of an optional string (`if cli_time:`): `None` and the
empty string are falsy. -/
def truthy : Option TimeStr → Bool
  | some s => !s.isEmpty
  | none => false

/-- Function `get_custom_time` (src/main.py lines 101-117): the CLI argument
takes priority, then the `NTP_CUSTOM_TIME` environment variable, then the
current system time `datetime.datetime.now(utc)` (given here as `now`, an
instant in microseconds).  A `ValueError` from `parse_custom_time` propagates. -/
def get_custom_time (cliTime envTime : Option TimeStr) (now : Int) :
    Except String (Option PyDatetime) :=
  if truthy cliTime then parse_custom_time (cliTime.getD default)
  else if truthy envTime then parse_custom_time (envTime.getD default)
  else .ok (some ⟨now, some 0⟩)

/-- Server configuration established by `main` at startup (src/main.py lines
219-224): the base time, whether a custom time was supplied, and the real start
instant `time.time()`. -/
structure ServerState where
  baseTime : Option PyDatetime
  useCustomTime : Bool
  serverStartTime : Int
deriving DecidableEq, Repr

/-- Startup portion of `main` (src/main.py lines 219-224).  The call
`get_custom_time(custom_time)` on line 220 runs before the `try:` block opens
on line 235, so an unparseable custom time raises out of `main` and the process
fails to start; there is no fallback to system time.  `use_custom_time` is the
truthiness of the CLI argument or, failing that, of the environment variable. -/
def startServer (cliTime envTime : Option TimeStr) (now serverStart : Int) :
    Except String ServerState :=
  match get_custom_time cliTime envTime now with
  | .error e => .error e
  | .ok b => .ok ⟨b, truthy cliTime || truthy envTime, serverStart⟩

/-- Rounding of the scaled microsecond remainder as the spec words the fraction
field (section 4.1: `fraction = round((microseconds / 1,000,000) * 2^32)`),
stated for comparison with the code's computation. -/
def fracSpecRound (microseconds : Int) : Int :=
  round ((microseconds * 4294967296 : Int) / (1000000 : ℚ))

/-! ### Helper lemmas -/

/-- On an aware UTC datetime at instant `T`, the encoder computes
`int(T / 10^6) * 2^32 + ((T mod 10^6) * 2^32) / 10^6`. -/
theorem dtts_utc (T : Int) :
    datetime_to_ntp_timestamp ⟨T, some 0⟩ =
      Int.tdiv T 1000000 * 4294967296 + T % 1000000 * 4294967296 / 1000000 := by
  simp [datetime_to_ntp_timestamp, astimezoneUTC, replaceTzUTC, NTP_EPOCH]

/-- An 8-byte string round-trips through its big-endian value, and that value
fits in 64 bits. -/
theorem bytes8_roundtrip (B : List Nat) (hlen : B.length = 8) (hb : ∀ b ∈ B, b < 256) :
    natToBytes8BE (bytesToNatBE B) = B ∧ bytesToNatBE B < 18446744073709551616 := by
  rcases B with _ | ⟨b0, _ | ⟨b1, _ | ⟨b2, _ | ⟨b3, _ | ⟨b4, _ | ⟨b5, _ | ⟨b6, _ | ⟨b7, _ | ⟨b8, B⟩⟩⟩⟩⟩⟩⟩⟩⟩ <;>
    simp_all [bytesToNatBE, natToBytes8BE]
  omega

/-- Any input of at least 48 bytes is accepted and yields the big-endian value
of bytes 24-31. -/
theorem parse_ntp_request_long (data : List Nat) (h : 48 ≤ data.length) :
    parse_ntp_request data = some (bytesToNatBE ((data.drop 24).take 8)) := by
  have hlen : ((data.drop 24).take 8).length = 8 := by
    simp [List.length_take, List.length_drop]; omega
  simp [parse_ntp_request, unpackQ, hlen]
  omega

/-- When the origin value and both timestamps are in 64-bit range, the response
builder succeeds and produces exactly the concatenation of its fields. -/
theorem build_ntp_response_eq (origin : Nat) (rt tt : PyDatetime)
    (ho : origin < 18446744073709551616)
    (hr0 : 0 ≤ datetime_to_ntp_timestamp rt)
    (hr1 : datetime_to_ntp_timestamp rt < 18446744073709551616)
    (ht0 : 0 ≤ datetime_to_ntp_timestamp tt)
    (ht1 : datetime_to_ntp_timestamp tt < 18446744073709551616) :
    build_ntp_response origin rt tt = some ([36, 2, 1, 236] ++
      natToBytes4BE 65 ++ natToBytes4BE 65 ++ [76, 79, 67, 76] ++
      natToBytes8BE (datetime_to_ntp_timestamp tt).toNat ++ natToBytes8BE origin ++
      natToBytes8BE (datetime_to_ntp_timestamp rt).toNat ++
      natToBytes8BE (datetime_to_ntp_timestamp tt).toNat) := by
  have hself : (origin : Int).toNat = origin := Int.toNat_natCast origin
  have hoz : (0 : Int) ≤ (origin : Int) ∧ (origin : Int) < 18446744073709551616 := by
    constructor
    · positivity
    · exact_mod_cast ho
  simp [build_ntp_response, packQ, hoz, hr0, hr1, ht0, ht1, hself]

/-! ### Claim theorems -/

/-- C1.  Codec round-trip: for every instant at or after the NTP epoch and
before 2036 (expressed as `T` microseconds since the epoch, with the seconds
representable in 32 bits), decoding the encoding yields an instant within
1 microsecond of the original (the decoded instant is at most 1 microsecond
below it and never above it). -/
theorem ntp_codec_roundtrip (T : Int) (h0 : 0 ≤ T) (h1 : T < 4294967296 * 1000000) :
    utcInstant (ntp_timestamp_to_datetime (datetime_to_ntp_timestamp ⟨T, some 0⟩)) ≤ T ∧
    T - utcInstant (ntp_timestamp_to_datetime (datetime_to_ntp_timestamp ⟨T, some 0⟩)) ≤ 1 := by
  rw [dtts_utc, Int.tdiv_eq_ediv h0 (by norm_num)]
  simp only [ntp_timestamp_to_datetime, utcInstant, astimezoneUTC, NTP_EPOCH]
  set u := T % 1000000 with hud
  set e := T / 1000000 with hed
  set f := u * 4294967296 / 1000000 with hfd
  have hu : 0 ≤ u ∧ u < 1000000 := by omega
  have he : 0 ≤ e ∧ e < 4294967296 := by omega
  have hf : 0 ≤ u * 4294967296 - 1000000 * f ∧ u * 4294967296 - 1000000 * f < 1000000 := by
    omega
  have hfb : 0 ≤ f ∧ f < 4294967296 := by omega
  have hNdiv : (e * 4294967296 + f) / 4294967296 = e := by omega
  have hNmod : (e * 4294967296 + f) % 4294967296 = f := by omega
  rw [hNdiv, hNmod]
  have hemod : e % 4294967296 = e := by omega
  rw [hemod]
  set d := f * 1000000 / 4294967296 with hdd
  have hd : 0 ≤ f * 1000000 - 4294967296 * d ∧ f * 1000000 - 4294967296 * d < 4294967296 := by
    omega
  omega

/-- C1 witness: the round-trip bound applied at the concrete instant
1 microsecond after the NTP epoch. -/
theorem ntp_codec_roundtrip_witness :
    (0 : Int) ≤ 1 ∧ (1 : Int) < 4294967296 * 1000000 ∧
    (utcInstant (ntp_timestamp_to_datetime (datetime_to_ntp_timestamp ⟨1, some 0⟩)) ≤ 1 ∧
     1 - utcInstant (ntp_timestamp_to_datetime (datetime_to_ntp_timestamp ⟨1, some 0⟩)) ≤ 1) :=
  ⟨by decide, by decide, ntp_codec_roundtrip 1 (by decide) (by decide)⟩

/-- C7 counterexample: at a sub-second remainder of 1 microsecond the code's
fraction field is 4294 (truncation of 4294.967296) while the nearest-integer
rounding the claim describes is 4295, so the fractional field is not the
rounding of the scaled remainder. -/
theorem fraction_round_counterexample :
    datetime_to_ntp_timestamp ⟨1, some 0⟩ % 4294967296 = 4294 ∧
    fracSpecRound 1 = 4295 ∧
    datetime_to_ntp_timestamp ⟨1, some 0⟩ % 4294967296 ≠ fracSpecRound 1 := by
  have h : fracSpecRound 1 = 4295 := by
    unfold fracSpecRound
    rw [round_eq]
    norm_num
  refine ⟨by decide, h, ?_⟩
  rw [h]
  decide

/-- C7 amended: for every instant `T` at or after the NTP epoch, the low
32 bits of the encoded timestamp are the floor (truncation, not the nearest
integer) of the scaled sub-second remainder
`(T mod 10^6) * 2^32 / 10^6`, and the value is below `2^32`, so the 32-bit
mask is a no-op. -/
theorem fraction_truncation (T : Int) (h0 : 0 ≤ T) :
    datetime_to_ntp_timestamp ⟨T, some 0⟩ % 4294967296
      = ⌊((T % 1000000 * 4294967296 : Int) : ℚ) / 1000000⌋ ∧
    datetime_to_ntp_timestamp ⟨T, some 0⟩ % 4294967296 < 4294967296 := by
  have hfloor : ⌊((T % 1000000 * 4294967296 : Int) : ℚ) / 1000000⌋
      = T % 1000000 * 4294967296 / 1000000 := by
    exact_mod_cast Rat.floor_intCast_div_natCast (T % 1000000 * 4294967296) 1000000
  rw [dtts_utc, Int.tdiv_eq_ediv h0 (by norm_num), hfloor]
  set u := T % 1000000 with hud
  set e := T / 1000000 with hed
  set f := u * 4294967296 / 1000000 with hfd
  have hu : 0 ≤ u ∧ u < 1000000 := by omega
  have hf : 0 ≤ u * 4294967296 - 1000000 * f ∧ u * 4294967296 - 1000000 * f < 1000000 := by
    omega
  omega

/-- C7 amended witness: the truncation characterisation applied at the concrete
instant 1 microsecond after the NTP epoch. -/
theorem fraction_truncation_witness :
    (0 : Int) ≤ 1 ∧
    (datetime_to_ntp_timestamp ⟨1, some 0⟩ % 4294967296
      = ⌊((1 % 1000000 * 4294967296 : Int) : ℚ) / 1000000⌋ ∧
     datetime_to_ntp_timestamp ⟨1, some 0⟩ % 4294967296 < 4294967296) :=
  ⟨by decide, fraction_truncation 1 (by decide)⟩

/-- C10.  Codec timezone invariance: a naive datetime encodes exactly as the
same wall reading tagged UTC, and any two aware datetimes denoting the same
UTC instant encode to the same NTP timestamp. -/
theorem codec_timezone_invariance :
    (∀ w : Int, datetime_to_ntp_timestamp ⟨w, none⟩ = datetime_to_ntp_timestamp ⟨w, some 0⟩) ∧
    (∀ d1 d2 : PyDatetime, d1.tz ≠ none → d2.tz ≠ none →
      utcInstant d1 = utcInstant d2 →
      datetime_to_ntp_timestamp d1 = datetime_to_ntp_timestamp d2) := by
  constructor
  · intro w
    simp [datetime_to_ntp_timestamp, astimezoneUTC, replaceTzUTC]
  · rintro ⟨w1, _ | o1⟩ ⟨w2, _ | o2⟩ h1 h2 h
    · exact absurd rfl h1
    · exact absurd rfl h1
    · exact absurd rfl h2
    · have hw : w1 - o1 = w2 - o2 := by
        simpa [utcInstant, astimezoneUTC] using h
      simp [datetime_to_ntp_timestamp, astimezoneUTC, NTP_EPOCH, hw]

/-- C2.  Origin echo: for every request of at least 48 bytes whose slice at
offsets 24-31 is `B`, the decoder returns the big-endian 64-bit value of `B`,
and the response built from that value carries exactly `B` at its own offsets
24-31.  The receive and transmit datetimes are arbitrary instants whose NTP
timestamps fit 64 bits (the range `struct.pack` accepts). -/
theorem origin_echo (data B : List Nat) (h48 : 48 ≤ data.length)
    (hbytes : ∀ b ∈ data, b < 256) (hB : (data.drop 24).take 8 = B)
    (receive_time transmit_time : PyDatetime)
    (hr0 : 0 ≤ datetime_to_ntp_timestamp receive_time)
    (hr1 : datetime_to_ntp_timestamp receive_time < 18446744073709551616)
    (ht0 : 0 ≤ datetime_to_ntp_timestamp transmit_time)
    (ht1 : datetime_to_ntp_timestamp transmit_time < 18446744073709551616) :
    parse_ntp_request data = some (bytesToNatBE B) ∧
    ∃ p, build_ntp_response (bytesToNatBE B) receive_time transmit_time = some p ∧
      (p.drop 24).take 8 = B := by
  subst hB
  have hBlen : ((data.drop 24).take 8).length = 8 := by
    simp [List.length_take, List.length_drop]; omega
  have hBmem : ∀ b ∈ (data.drop 24).take 8, b < 256 := fun b hb =>
    hbytes b (List.mem_of_mem_drop (List.mem_of_mem_take hb))
  obtain ⟨hrt, hlt⟩ := bytes8_roundtrip _ hBlen hBmem
  refine ⟨parse_ntp_request_long data h48,
    _, build_ntp_response_eq _ receive_time transmit_time hlt hr0 hr1 ht0 ht1, ?_⟩
  have h1 : (([36, 2, 1, 236] ++ natToBytes4BE 65 ++ natToBytes4BE 65 ++ [76, 79, 67, 76] ++
      natToBytes8BE (datetime_to_ntp_timestamp transmit_time).toNat ++
      natToBytes8BE (bytesToNatBE ((data.drop 24).take 8)) ++
      natToBytes8BE (datetime_to_ntp_timestamp receive_time).toNat ++
      natToBytes8BE (datetime_to_ntp_timestamp transmit_time).toNat).drop 24).take 8
      = natToBytes8BE (bytesToNatBE ((data.drop 24).take 8)) := by
    simp only [natToBytes4BE, natToBytes8BE, List.cons_append, List.nil_append]
    rfl
  rw [h1, hrt]

/-- C2 witness: the echo property at a concrete 48-byte request and concrete
epoch instants. -/
theorem origin_echo_witness :
    48 ≤ (List.replicate 48 9).length ∧
    (parse_ntp_request (List.replicate 48 9)
        = some (bytesToNatBE (((List.replicate 48 9).drop 24).take 8)) ∧
     ∃ p, build_ntp_response (bytesToNatBE (((List.replicate 48 9).drop 24).take 8))
          ⟨0, some 0⟩ ⟨0, some 0⟩ = some p ∧
        (p.drop 24).take 8 = ((List.replicate 48 9).drop 24).take 8) :=
  ⟨by decide, origin_echo (List.replicate 48 9) _ (by decide) (by decide) rfl
    ⟨0, some 0⟩ ⟨0, some 0⟩ (by decide) (by decide) (by decide) (by decide)⟩

/-- C3.  Response shape: for every origin value and pair of instants in the
packable range, `build_ntp_response` returns exactly 48 bytes, byte 0 is
`0b00100100 = 36` (LI=0, VN=4, Mode=4), byte 1 (stratum) is 2, and bytes 12-15
are the ASCII string LOCL. -/
theorem response_shape (origin : Nat) (receive_time transmit_time : PyDatetime)
    (ho : origin < 18446744073709551616)
    (hr0 : 0 ≤ datetime_to_ntp_timestamp receive_time)
    (hr1 : datetime_to_ntp_timestamp receive_time < 18446744073709551616)
    (ht0 : 0 ≤ datetime_to_ntp_timestamp transmit_time)
    (ht1 : datetime_to_ntp_timestamp transmit_time < 18446744073709551616) :
    ∃ p, build_ntp_response origin receive_time transmit_time = some p ∧
      p.length = 48 ∧ p.take 2 = [36, 2] ∧ (p.drop 12).take 4 = [76, 79, 67, 76] := by
  refine ⟨_, build_ntp_response_eq origin receive_time transmit_time ho hr0 hr1 ht0 ht1,
    ?_, ?_, ?_⟩ <;>
    simp only [natToBytes4BE, natToBytes8BE, List.cons_append, List.nil_append] <;> rfl

/-- C3 witness: the response shape at concrete inputs. -/
theorem response_shape_witness :
    (0 : Nat) < 18446744073709551616 ∧
    ∃ p, build_ntp_response 0 ⟨0, some 0⟩ ⟨0, some 0⟩ = some p ∧
      p.length = 48 ∧ p.take 2 = [36, 2] ∧ (p.drop 12).take 4 = [76, 79, 67, 76] :=
  ⟨by decide, response_shape 0 ⟨0, some 0⟩ ⟨0, some 0⟩ (by decide) (by decide) (by decide)
    (by decide) (by decide)⟩

/-- C4.  Rejection boundary: every input of 47 bytes or fewer is rejected
(`None`), and every input of exactly 48 bytes is accepted regardless of its
content, returning the 64-bit big-endian value at offset 24. -/
theorem rejection_boundary :
    (∀ data : List Nat, data.length ≤ 47 → parse_ntp_request data = none) ∧
    (∀ data : List Nat, data.length = 48 →
      parse_ntp_request data = some (bytesToNatBE ((data.drop 24).take 8))) := by
  constructor
  · intro data h
    unfold parse_ntp_request
    rw [if_pos (by omega)]
  · intro data h
    exact parse_ntp_request_long data (by omega)

/-- C4 witness: the boundary at a concrete 47-byte and a concrete 48-byte
input. -/
theorem rejection_boundary_witness :
    (List.replicate 47 0).length ≤ 47 ∧ parse_ntp_request (List.replicate 47 0) = none ∧
    (List.replicate 48 7).length = 48 ∧
    parse_ntp_request (List.replicate 48 7)
      = some (bytesToNatBE (((List.replicate 48 7).drop 24).take 8)) :=
  ⟨by decide, rejection_boundary.1 _ (by decide), by decide, rejection_boundary.2 _ (by decide)⟩

/-- C9.  Decoder totality: the decoder returns `None` exactly on inputs shorter
than 48 bytes; on any input of at least 48 bytes the slice at offsets 24-31 has
exactly 8 bytes, so `unpackQ` (the `struct.unpack` call) succeeds and its
`struct.error` branch is unreachable. -/
theorem parse_request_total (data : List Nat) :
    (parse_ntp_request data = none ↔ data.length < 48) ∧
    (48 ≤ data.length →
      ((data.drop 24).take 8).length = 8 ∧
      unpackQ ((data.drop 24).take 8) = some (bytesToNatBE ((data.drop 24).take 8))) := by
  constructor
  · constructor
    · intro hnone
      by_contra hlen
      rw [parse_ntp_request_long data (by omega)] at hnone
      simp at hnone
    · intro h
      unfold parse_ntp_request
      rw [if_pos h]
  · intro h
    have hlen : ((data.drop 24).take 8).length = 8 := by
      simp [List.length_take, List.length_drop]; omega
    exact ⟨hlen, by simp [unpackQ, hlen]⟩

/-- C9 witness: totality at a concrete 50-byte input. -/
theorem parse_request_total_witness :
    48 ≤ (List.replicate 50 3).length ∧
    ((((List.replicate 50 3).drop 24).take 8).length = 8 ∧
     unpackQ (((List.replicate 50 3).drop 24).take 8)
       = some (bytesToNatBE (((List.replicate 50 3).drop 24).take 8))) :=
  ⟨by decide, (parse_request_total (List.replicate 50 3)).2 (by decide)⟩

/-- C5.  Virtual clock lockstep: with a custom base configured, the transmit
instant for the real-time sample `r` (the `time.time()` reading the loop takes)
is `base + (r - serverStart)`, so for two samples `r1 < r2` the transmit
instants differ by exactly `r2 - r1` — the virtual clock advances at real-world
rate, neither frozen nor accelerated. -/
theorem virtual_clock_lockstep (base start tr1 tr2 r1 r2 : Int) (h : r1 < r2) :
    loopTransmitInstant true base start tr1 r1 = base + (r1 - start) ∧
    loopTransmitInstant true base start tr2 r2 - loopTransmitInstant true base start tr1 r1
      = r2 - r1 := by
  refine ⟨by simp [loopTransmitInstant], ?_⟩
  simp only [loopTransmitInstant, if_true]
  ring

/-- C5 witness: lockstep at concrete samples. -/
theorem virtual_clock_lockstep_witness :
    (5 : Int) < 9 ∧
    (loopTransmitInstant true 100 2 0 5 = 100 + (5 - 2) ∧
     loopTransmitInstant true 100 2 0 9 - loopTransmitInstant true 100 2 0 5 = 9 - 5) :=
  ⟨by decide, virtual_clock_lockstep 100 2 0 0 5 9 (by decide)⟩

/-- C6 counterexample: the loop computes the transmit instant from the later
`time.time()` sample `tNow = 7`, not the stored receive sample `tReceive = 5`;
with base 1000 and start 0 the code yields 1007 while the claim predicts 1005. -/
theorem orchestrator_sample_counterexample :
    loopTransmitInstant true 1000 0 5 7 ≠ specVirtualClock true 1000 0 5 ∧
    loopTransmitInstant true 1000 0 5 7 = 1007 ∧ specVirtualClock true 1000 0 5 = 1005 :=
  ⟨by decide, by decide, by decide⟩

/-- C6 amended: in custom-base mode the orchestrator applies the Virtual Clock
with a second, fresh `time.time()` sample taken when building the response as
`realNow` — not the receive instant captured at step 3 — so the transmit
instant is `base + (tNow - serverStart)`; in passthrough mode the transmit
instant is the receive instant itself. -/
theorem orchestrator_fresh_sample (base start tReceive tNow : Int) :
    loopTransmitInstant true base start tReceive tNow = specVirtualClock true base start tNow ∧
    loopTransmitInstant false base start tReceive tNow = tReceive := by
  constructor <;> simp [loopTransmitInstant, specVirtualClock]

/-- C8 helper: `parse_custom_time` raises exactly when its input is non-empty
and the Unix-timestamp, ISO-8601 and all four fixed-format parses fail. -/
theorem parse_custom_time_error_iff (s : TimeStr) :
    (∃ e, parse_custom_time s = .error e) ↔
      s.isEmpty = false ∧ s.unixResult = none ∧ s.isoResult = none ∧
        firstSome s.fmtResults = none := by
  rcases s with ⟨ie, ur, ir, fr⟩
  cases ie <;> cases ur <;> cases ir <;> rcases hfr : firstSome fr with _ | w <;>
    simp [parse_custom_time, hfr]

/-- C8.  Fatal configuration parse: `parse_custom_time` errors exactly when the
non-empty input parses as none of a numeric Unix timestamp, an ISO-8601
date/time, or one of the four fixed naive formats; and when such an unparseable
custom time string is supplied at startup, `startServer` never yields a running
state — the process fails to start instead of falling back to system time. -/
theorem custom_time_parse_fatal :
    (∀ s : TimeStr, (∃ e, parse_custom_time s = .error e) ↔
      (s.isEmpty = false ∧ s.unixResult = none ∧ s.isoResult = none ∧
       firstSome s.fmtResults = none)) ∧
    (∀ (s : TimeStr) (envTime : Option TimeStr) (now serverStart : Int),
      s.isEmpty = false → s.unixResult = none → s.isoResult = none →
      firstSome s.fmtResults = none →
      ∀ st : ServerState, startServer (some s) envTime now serverStart ≠ .ok st) := by
  refine ⟨parse_custom_time_error_iff, ?_⟩
  intro s envTime now serverStart hie hur hir hfr st
  obtain ⟨e, he⟩ := (parse_custom_time_error_iff s).mpr ⟨hie, hur, hir, hfr⟩
  unfold startServer get_custom_time
  simp [truthy, hie, he]

/-- C8 witness: a concrete non-empty string on which every parse attempt fails
errors out of `parse_custom_time`, and supplying it at startup prevents the
server from starting. -/
theorem custom_time_parse_fatal_witness :
    (TimeStr.mk false none none [none, none, none, none]).isEmpty = false ∧
    (∃ e, parse_custom_time ⟨false, none, none, [none, none, none, none]⟩ = .error e) ∧
    startServer (some ⟨false, none, none, [none, none, none, none]⟩) none 5 7
      ≠ .ok ⟨some ⟨5, some 0⟩, false, 7⟩ :=
  ⟨rfl,
   (custom_time_parse_fatal.1 ⟨false, none, none, [none, none, none, none]⟩).mpr
     ⟨rfl, rfl, rfl, rfl⟩,
   custom_time_parse_fatal.2 ⟨false, none, none, [none, none, none, none]⟩ none 5 7 rfl rfl rfl
     rfl ⟨some ⟨5, some 0⟩, false, 7⟩⟩

/-- C10 witness: invariance applied at a concrete naive datetime and at two
concrete aware datetimes denoting the same UTC instant. -/
theorem codec_timezone_invariance_witness :
    datetime_to_ntp_timestamp ⟨5, none⟩ = datetime_to_ntp_timestamp ⟨5, some 0⟩ ∧
    (PyDatetime.mk 10 (some 3)).tz ≠ none ∧ (PyDatetime.mk 8 (some 1)).tz ≠ none ∧
    utcInstant ⟨10, some 3⟩ = utcInstant ⟨8, some 1⟩ ∧
    datetime_to_ntp_timestamp ⟨10, some 3⟩ = datetime_to_ntp_timestamp ⟨8, some 1⟩ :=
  ⟨codec_timezone_invariance.1 5, by decide, by decide, by decide,
   codec_timezone_invariance.2 ⟨10, some 3⟩ ⟨8, some 1⟩ (by decide) (by decide) (by decide)⟩

end NtpServer
